import Mathlib

/-!
Verification of the annotation / layer / history core of the ModifyPDF
repository (frontend/src/components/PDFEditor.jsx, PDFViewer.jsx,
LayerManager.jsx), as a shallow embedding.

Naming note: the JavaScript source calls the central record `Annotation`
and its handlers `handleAddAnnotation`, `drawAnnotation`, `drawAnnotations`,
`currentAnnotation`.  In this file those names are shortened to `Annot`,
`handleAddAnnot`, `drawAnnot`, `drawAnnots`, `currentAnnot`; every other
name is kept verbatim from the source.  JavaScript numbers are modelled as
`ℚ` for geometry and `Int`/`Nat` for indices; a field that JavaScript may
leave `undefined` is an `Option`.
-/

namespace ModifyPDF

/-- The annotation record (source name `Annotation`).  Fields mirror the
object literals built in PDFViewer.jsx (`handleMouseMove`, `handleMouseDown`),
ToolPanel.jsx (`handleImageUpload`), SignatureLibrary.jsx
(`handleUseSignature`) and PDFEditor.jsx (`handleAddAnnotation`,
`handleAddSignature`).  `layer` is an `Option` because
`handleAddSignature` never sets it (the field stays `undefined`);
`text`, `fontSize`, `color`, `imageData` are likewise kind-dependent. -/
structure Annot where
  id : Nat
  type : String
  page : Nat
  layer : Option Nat
  x : ℚ
  y : ℚ
  width : ℚ
  height : ℚ
  color : Option String
  text : Option String
  fontSize : Option ℚ
  imageData : Option String
deriving Repr, DecidableEq, Inhabited

/-- JavaScript `o || d` on an optional string: `undefined` and the empty
string are falsy, everything else is returned unchanged. -/
def jsOrS (o : Option String) (d : String) : String :=
  match o with
  | none => d
  | some s => if s = "" then d else s

/-- JavaScript `o || d` on an optional number: `undefined` and `0` are
falsy. -/
def jsOrQ (o : Option ℚ) (d : ℚ) : ℚ :=
  match o with
  | none => d
  | some q => if q = 0 then d else q

/-- The editor-level state held in `PDFEditor`'s `useState` hooks
(`annotations`, `layers`, `history`, `historyIndex`, `currentPage`).
The `layers` list is only ever set to `[]` (initial value and
`handleFileUpload`), and nothing reads anything of it but its length,
so its entries are modelled as `Unit`.  `historyIndex` starts at `-1`,
hence `Int`. -/
structure EditorState where
  annotations : List Annot
  layers : List Unit
  currentPage : Nat
  history : List (List Annot)
  historyIndex : Int
deriving Repr, DecidableEq, Inhabited

/-- The initial `useState` values of PDFEditor.jsx (lines 34-42):
no annotations, no layers, page 1, empty history, `historyIndex = -1`. -/
def initialState : EditorState :=
  { annotations := [], layers := [], currentPage := 1, history := [], historyIndex := -1 }

/-- `addToHistory` (PDFEditor.jsx lines 148-153):
`history.slice(0, historyIndex + 1)` (a nonnegative-end slice, i.e. `take`),
push the new snapshot, and point `historyIndex` at the new last entry. -/
def addToHistory (s : EditorState) (newAnnots : List Annot) : EditorState :=
  let newHistory := s.history.take (s.historyIndex + 1).toNat ++ [newAnnots]
  { s with history := newHistory, historyIndex := (newHistory.length : Int) - 1 }

/-- `handleAddAnnotation` (PDFEditor.jsx lines 115-130): spread the draft,
overriding `id` with `Date.now()` (passed here as the explicit clock value
`now`), `page` with `currentPage` and `layer` with `layers.length`; append
to `annotations` and push the appended list as a history snapshot. -/
def handleAddAnnot (s : EditorState) (draft : Annot) (now : Nat) : EditorState :=
  let newAnnot : Annot :=
    { draft with id := now, page := s.currentPage, layer := some s.layers.length }
  let newAnnots := s.annotations ++ [newAnnot]
  addToHistory { s with annotations := newAnnots } newAnnots

/-- `handleAddSignature` (PDFEditor.jsx lines 132-146): spread the draft,
overriding only `id` and `page` — in particular the draft's (absent)
`layer` field is kept as is; append and push a snapshot. -/
def handleAddSig (s : EditorState) (sig : Annot) (now : Nat) : EditorState :=
  let newSig : Annot := { sig with id := now, page := s.currentPage }
  let newAnnots := s.annotations ++ [newSig]
  addToHistory { s with annotations := newAnnots } newAnnots

/-- The enabled-condition of the Undo button (PDFEditor.jsx line 239:
`disabled={historyIndex <= 0}`); its negation is the spec's
`NothingToUndo` signal. -/
def canUndo (s : EditorState) : Bool :=
  decide (0 < s.historyIndex)

/-- The enabled-condition of the Redo button (PDFEditor.jsx line 247:
`disabled={historyIndex >= history.length - 1}`); its negation is the
spec's `NothingToRedo` signal. -/
def canRedo (s : EditorState) : Bool :=
  decide (s.historyIndex < (s.history.length : Int) - 1)

/-- `handleUndo` (PDFEditor.jsx lines 155-164): when `historyIndex > 0`,
decrement the index and install `history[historyIndex - 1]` as the full
annotation set; otherwise do nothing. -/
def handleUndo (s : EditorState) : EditorState :=
  if 0 < s.historyIndex then
    { s with historyIndex := s.historyIndex - 1,
             annotations := s.history.getD (s.historyIndex - 1).toNat [] }
  else s

/-- `handleRedo` (PDFEditor.jsx lines 166-175): when
`historyIndex < history.length - 1`, increment the index and install
`history[historyIndex + 1]`; otherwise do nothing. -/
def handleRedo (s : EditorState) : EditorState :=
  if s.historyIndex < (s.history.length : Int) - 1 then
    { s with historyIndex := s.historyIndex + 1,
             annotations := s.history.getD (s.historyIndex + 1).toNat [] }
  else s

/-- `handleFileUpload` (PDFEditor.jsx lines 55-89), given that a file was
chosen: files over 100MB or of a non-PDF MIME type are rejected with a
toast and no state change; otherwise annotations, layers and history are
reset and the page returns to 1. -/
def handleFileUpload (s : EditorState) (fileSize : Nat) (fileType : String) : EditorState :=
  if fileSize > 100 * 1024 * 1024 then s
  else if fileType ≠ "application/pdf" then s
  else { s with currentPage := 1, annotations := [], layers := [],
                history := [], historyIndex := -1 }

/-! ### LayerManager.jsx -/

/-- Insert into an ascending list (helper for `layerKeys`). -/
def insertSorted (n : Nat) : List Nat → List Nat
  | [] => [n]
  | m :: ms => if n ≤ m then n :: m :: ms else m :: insertSorted n ms

/-- Ascending sort (helper for `layerKeys`). -/
def sortAsc (l : List Nat) : List Nat := l.foldr insertSorted []

/-- The keys of `groupedAnnotations` (LayerManager.jsx lines 18-25): each
annotation is grouped under `annotation.layer || 0`; `Object.keys` on
integer-like keys enumerates them in ascending numeric order, with one
entry per distinct key. -/
def layerKeys (anns : List Annot) : List Nat :=
  sortAsc ((anns.map (fun a => a.layer.getD 0)).dedup)

/-- One entry of `layerList` (LayerManager.jsx lines 27-31). -/
structure LayerEntry where
  index : Nat
  annotations : List Annot
  visible : Bool
deriving Repr, DecidableEq

/-- `layerList` (LayerManager.jsx lines 27-31): one entry per distinct
grouping key, carrying that key's annotations and a hard-coded
`visible := true`. -/
def layerList (anns : List Annot) : List LayerEntry :=
  (layerKeys anns).map (fun k =>
    { index := k
      annotations := anns.filter (fun a => a.layer.getD 0 = k)
      visible := true })

/-- The `direction` argument of `handleMoveLayer`. -/
inductive Direction where
  | up
  | down
deriving Repr, DecidableEq

/-- `handleMoveLayer` (LayerManager.jsx lines 33-55): every annotation with
`layer === layerIndex` (strict equality, so an `undefined` layer never
matches) has its layer set to `Math.min(layer + 1, layerList.length)` for
`up`, or `Math.max(layer - 1, 0)` for `down` (realized here by truncating
`Nat` subtraction); `layerList.length` is the number of distinct grouping
keys, computed from the annotations before the move. -/
def handleMoveLayer (anns : List Annot) (layerIndex : Nat) (direction : Direction) :
    List Annot :=
  let bound := (layerList anns).length
  anns.map (fun a =>
    if a.layer = some layerIndex then
      match direction with
      | Direction.up => { a with layer := some (min (layerIndex + 1) bound) }
      | Direction.down => { a with layer := some (layerIndex - 1) }
    else a)

/-- `handleDeleteLayer` (LayerManager.jsx lines 57-65): keep exactly the
annotations whose `layer !== layerIndex`. -/
def handleDeleteLayer (anns : List Annot) (layerIndex : Nat) : List Annot :=
  anns.filter (fun a => a.layer ≠ some layerIndex)

/-- `handleToggleVisibility` (LayerManager.jsx lines 67-73): the body only
raises a toast — "For now, just show toast. In a full implementation,
you'd track visibility state" — so no state of any kind changes. -/
def handleToggleVisibility (anns : List Annot) (layerIndex : Nat) : List Annot :=
  anns

/-- `handleMoveLayer` as seen from the editor: `LayerManager` receives
`onAnnotationsChange = setAnnotations` (PDFEditor.jsx line 302), so only
the `annotations` hook changes — no history push. -/
def editorMoveLayer (s : EditorState) (layerIndex : Nat) (direction : Direction) :
    EditorState :=
  { s with annotations := handleMoveLayer s.annotations layerIndex direction }

/-- `handleDeleteLayer` as seen from the editor: again only
`setAnnotations` is invoked; `addToHistory` is private to `PDFEditor` and
never passed to `LayerManager`. -/
def editorDeleteLayer (s : EditorState) (layerIndex : Nat) : EditorState :=
  { s with annotations := handleDeleteLayer s.annotations layerIndex }

/-! ### PDFViewer.jsx -/

/-- One canvas draw call issued by `drawAnnotation` (source name) in
PDFViewer.jsx lines 64-119.  `arrow` carries the `drawArrow` parameters
(the two stroke legs of the head are computed from these by
trigonometry at the canvas level); `imageBlit` is the `drawImage` call
issued once the raster payload has decoded. -/
inductive DrawPrimitive where
  | glyphRun (color : String) (fontSize : ℚ) (text : String) (x y : ℚ)
  | strokeRect (color : String) (lineWidth : ℚ) (x y w h : ℚ)
  | strokeEllipse (color : String) (lineWidth : ℚ) (cx cy r : ℚ)
  | fillRect (color : String) (x y w h : ℚ)
  | arrow (color : String) (lineWidth : ℚ) (fromX fromY toX toY headlen : ℚ)
  | imageBlit (imageData : String) (x y w h : ℚ)
deriving Repr, DecidableEq

/-- `drawAnnotation` (source name; PDFViewer.jsx lines 64-119): the
per-kind `switch`.  A kind with no `case` (e.g. `image`, `freehand`)
draws nothing; a `signature` with a falsy `imageData` draws nothing. -/
def drawAnnot (zoomLevel : ℚ) (a : Annot) : List DrawPrimitive :=
  if a.type = "text" then
    [DrawPrimitive.glyphRun (jsOrS a.color "#000") (jsOrQ a.fontSize 14 * zoomLevel)
      (jsOrS a.text "Text") (a.x * zoomLevel) (a.y * zoomLevel)]
  else if a.type = "rectangle" then
    [DrawPrimitive.strokeRect (jsOrS a.color "#000") (2 * zoomLevel)
      (a.x * zoomLevel) (a.y * zoomLevel) (a.width * zoomLevel) (a.height * zoomLevel)]
  else if a.type = "circle" then
    [DrawPrimitive.strokeEllipse (jsOrS a.color "#000") (2 * zoomLevel)
      ((a.x + a.width / 2) * zoomLevel) ((a.y + a.height / 2) * zoomLevel)
      (min a.width a.height / 2 * zoomLevel)]
  else if a.type = "highlight" then
    [DrawPrimitive.fillRect (jsOrS a.color "rgba(255, 255, 0, 0.3)")
      (a.x * zoomLevel) (a.y * zoomLevel) (a.width * zoomLevel) (a.height * zoomLevel)]
  else if a.type = "arrow" then
    [DrawPrimitive.arrow (jsOrS a.color "#000") (2 * zoomLevel)
      (a.x * zoomLevel) (a.y * zoomLevel)
      ((a.x + a.width) * zoomLevel) ((a.y + a.height) * zoomLevel) (10 * zoomLevel)]
  else if a.type = "signature" then
    match a.imageData with
    | none => []
    | some img =>
        if img = "" then []
        else [DrawPrimitive.imageBlit img (a.x * zoomLevel) (a.y * zoomLevel)
          (a.width * zoomLevel) (a.height * zoomLevel)]
  else []

/-- `drawAnnotations` (source name; PDFViewer.jsx lines 56-62): filter the
annotations to the current page and draw each in array order — there is
no sort, no layer consultation and no visibility consultation. -/
def drawAnnots (zoomLevel : ℚ) (currentPage : Nat) (anns : List Annot) :
    List DrawPrimitive :=
  ((anns.filter (fun a => a.page = currentPage)).map (drawAnnot zoomLevel)).flatten

/-- The viewer-local `useState` hooks of PDFViewer.jsx (lines 13-15);
`currentAnnot` is the source's `currentAnnotation` draft. -/
structure ViewerState where
  isDrawing : Bool
  startPoint : Option (ℚ × ℚ)
  currentAnnot : Option Annot
deriving Repr, DecidableEq

/-- The reset performed at the end of `handleMouseUp`. -/
def idleViewer : ViewerState :=
  { isDrawing := false, startPoint := none, currentAnnot := none }

/-- The draft built by `handleMouseMove` (PDFViewer.jsx lines 168-184) for
the drag tools: origin is the component-wise min of start and current
point, size the component-wise absolute difference.  The draft carries no
`id`/`page`/`layer` (all overridden or absent at commit); other tools
build no draft. -/
def mkDragDraft (selectedTool : String) (startPoint point : ℚ × ℚ) : Option Annot :=
  if selectedTool = "rectangle" ∨ selectedTool = "circle" ∨
      selectedTool = "highlight" ∨ selectedTool = "arrow" then
    some
      { id := 0, type := selectedTool, page := 0, layer := none
        x := min startPoint.1 point.1
        y := min startPoint.2 point.2
        width := |point.1 - startPoint.1|
        height := |point.2 - startPoint.2|
        color := some (if selectedTool = "highlight" then "rgba(255, 255, 0, 0.3)" else "#000")
        text := none, fontSize := none, imageData := none }
  else none

/-- `handleMouseUp` (PDFViewer.jsx lines 186-201) combined with the
`onAddAnnotation` callback wired to `handleAddAnnotation`: no commit
unless a drag is in progress with a live draft; the draft is committed
iff its width and height both strictly exceed 5; the viewer always
returns to idle. -/
def handleMouseUp (v : ViewerState) (s : EditorState) (now : Nat) :
    EditorState × ViewerState :=
  match v.isDrawing, v.currentAnnot with
  | true, some draft =>
      if 5 < draft.width ∧ 5 < draft.height then (handleAddAnnot s draft now, idleViewer)
      else (s, idleViewer)
  | _, _ => (s, idleViewer)

/-! ### Concrete inputs used by witnesses and counterexamples -/

/-- A committed rectangle annotation (all fields concrete). -/
def rectAnn (idv pg : Nat) (ly : Option Nat) (px py w h : ℚ) : Annot :=
  { id := idv, type := "rectangle", page := pg, layer := ly, x := px, y := py,
    width := w, height := h, color := some "#000", text := none, fontSize := none,
    imageData := none }

/-- A rectangle draft as produced by `handleMouseMove` (no id/page/layer yet). -/
def rectDraft (px py w h : ℚ) : Annot :=
  { id := 0, type := "rectangle", page := 0, layer := none, x := px, y := py,
    width := w, height := h, color := some "#000", text := none, fontSize := none,
    imageData := none }

/-- A signature draft exactly as `handleUseSignature` (SignatureLibrary.jsx)
passes it to `onAddSignature`: type, geometry and `imageData` only — no
`layer` field. -/
def sigDraft : Annot :=
  { id := 0, type := "signature", page := 0, layer := none, x := 100, y := 100,
    width := 200, height := 100, color := none, text := none, fontSize := none,
    imageData := some "data:image/png;base64,iVBORw0KGgo" }

/-- A committed state sitting at the second of two snapshots. -/
def exUndoState : EditorState :=
  { annotations := [rectAnn 1 1 (some 0) 10 10 20 20]
    layers := []
    currentPage := 1
    history := [[], [rectAnn 1 1 (some 0) 10 10 20 20]]
    historyIndex := 1 }

/-- C2 scenario, step 1-3: three sequential commits from the initial state. -/
def exC2s3 : EditorState :=
  handleAddAnnot
    (handleAddAnnot
      (handleAddAnnot initialState (rectDraft 1 1 10 10) 101)
      (rectDraft 2 2 10 10) 102)
    (rectDraft 3 3 10 10) 103

/-- C2 scenario, step 4: undo twice. -/
def exC2u2 : EditorState := handleUndo (handleUndo exC2s3)

/-- C2 scenario, step 5: commit a fourth annotation after the double undo. -/
def exC2s4 : EditorState := handleAddAnnot exC2u2 (rectDraft 4 4 10 10) 104

/-- A page-1 annotation on layer 1, inserted before `exLayer0Ann`. -/
def exLayer1Ann : Annot := rectAnn 1 1 (some 1) 10 10 20 20

/-- A page-1 annotation on layer 0, inserted after `exLayer1Ann`. -/
def exLayer0Ann : Annot := rectAnn 2 1 (some 0) 30 30 40 40

/-- A state holding one layer-0 annotation and exactly one snapshot. -/
def exDeleteState : EditorState :=
  { annotations := [exLayer0Ann]
    layers := []
    currentPage := 1
    history := [[exLayer0Ann]]
    historyIndex := 0 }

/-- Two distinct drafts committed in the same millisecond, i.e. with the
same `Date.now()` value 100. -/
def exDupState : EditorState :=
  handleAddAnnot (handleAddAnnot initialState (rectDraft 1 1 10 10) 100)
    (rectDraft 2 2 10 10) 100

/-- A signature draft placed from the library onto the initial state. -/
def exSigState : EditorState := handleAddSig initialState sigDraft 200

/-! ### Helper lemmas -/

/-- `getD` through a `map`, inside bounds. -/
theorem getD_map_of_lt {α β : Type} (f : α → β) (l : List α) (i : Nat) (d : β) (d' : α)
    (hi : i < l.length) : (l.map f).getD i d = f (l.getD i d') := by
  induction l generalizing i with
  | nil => simp at hi
  | cons a t ih =>
      cases i with
      | zero => rfl
      | succ j =>
          simp only [List.map_cons, List.getD_cons_succ]
          exact ih j (by simpa using hi)

/-- `getD` at the appended position of `l ++ [x]`. -/
theorem getD_append_singleton {α : Type} (l : List α) (x : α) (d : α) :
    (l ++ [x]).getD l.length d = x := by
  induction l with
  | nil => rfl
  | cons a t ih => simpa using ih

/-! ### C1 -/

/-- C1: for a committed state (the live annotation set equals the snapshot
under the cursor) with `0 < historyIndex < history.length`, `handleRedo`
after `handleUndo` restores the editor state bit-identically. -/
theorem undo_redo_roundtrip (s : EditorState)
    (h0 : 0 < s.historyIndex)
    (hlen : s.historyIndex < (s.history.length : Int))
    (hcomm : s.annotations = s.history.getD s.historyIndex.toNat []) :
    handleRedo (handleUndo s) = s := by
  obtain ⟨anns, lays, pg, hist, idx⟩ := s
  simp only [handleUndo, handleRedo] at *
  rw [if_pos h0]
  simp only
  rw [if_pos (by omega)]
  have h1 : idx - 1 + 1 = idx := by omega
  simp [h1, hcomm]

/-- C1 witness: the round trip at a concrete two-snapshot state. -/
theorem undo_redo_roundtrip_witness :
    0 < exUndoState.historyIndex ∧ handleRedo (handleUndo exUndoState) = exUndoState :=
  ⟨by decide, undo_redo_roundtrip exUndoState (by decide) (by decide) (by decide)⟩

/-! ### C8 -/

/-- C8: `handleUndo` is the `NothingToUndo` no-op (with the Undo button
disabled) whenever `historyIndex ≤ 0`, leaving history and annotations
unchanged; otherwise it decrements `historyIndex` and installs the
snapshot at the new index as the full annotation set, leaving history
itself untouched. -/
theorem undo_boundary (s : EditorState) :
    (s.historyIndex ≤ 0 → canUndo s = false ∧ handleUndo s = s) ∧
    (0 < s.historyIndex →
      canUndo s = true ∧
      (handleUndo s).historyIndex = s.historyIndex - 1 ∧
      (handleUndo s).annotations = s.history.getD (s.historyIndex - 1).toNat [] ∧
      (handleUndo s).history = s.history) := by
  constructor
  · intro h
    constructor
    · simp [canUndo]; omega
    · simp [handleUndo]; omega
  · intro h
    refine ⟨by simp [canUndo, h], ?_, ?_, ?_⟩ <;> simp [handleUndo, h]

/-- C8 witness: at the initial (empty) state `historyIndex = -1 ≤ 0`, undo
is the disabled no-op; at the concrete committed state it decrements and
installs the previous snapshot. -/
theorem undo_boundary_witness :
    (initialState.historyIndex ≤ 0 ∧ handleUndo initialState = initialState) ∧
    (0 < exUndoState.historyIndex ∧ (handleUndo exUndoState).historyIndex = 0 ∧
      (handleUndo exUndoState).annotations = []) := by
  refine ⟨⟨by decide, ((undo_boundary initialState).1 (by decide)).2⟩, by decide, ?_, ?_⟩
  · exact (((undo_boundary exUndoState).2 (by decide)).2).1
  · have h := ((((undo_boundary exUndoState).2 (by decide)).2).2).1
    simpa using h

/-! ### C2 -/

/-- C2: `addToHistory` truncates the snapshot sequence to positions
`[0, historyIndex]`, appends the new snapshot and points `historyIndex`
at the new last index; in the concrete scenario — three commits
(`historyIndex = 2`), two undos (`historyIndex = 0`), a fourth commit —
the history has length 2 with `historyIndex = 1`, and redo is the
disabled `NothingToRedo` no-op. -/
theorem push_truncation_scenario :
    (∀ (s : EditorState) (snap : List Annot),
      (addToHistory s snap).history
        = s.history.take (s.historyIndex + 1).toNat ++ [snap] ∧
      (addToHistory s snap).historyIndex
        = ((s.history.take (s.historyIndex + 1).toNat ++ [snap]).length : Int) - 1) ∧
    exC2s3.historyIndex = 2 ∧ exC2s3.history.length = 3 ∧
    exC2u2.historyIndex = 0 ∧
    exC2s4.history.length = 2 ∧ exC2s4.historyIndex = 1 ∧
    canRedo exC2s4 = false ∧ handleRedo exC2s4 = exC2s4 := by
  refine ⟨fun s snap => ⟨rfl, rfl⟩, ?_, ?_, ?_, ?_, ?_, ?_, ?_⟩ <;> decide

/-! ### C3 -/

/-- C3: with a drag in progress and a live draft, pointer-up leaves the
whole editor state (in particular the annotations list) unchanged when
the draft's width or height is below 5, and an annotation is committed
iff both width and height strictly exceed the 5-unit threshold. -/
theorem drag_threshold_reject (s : EditorState) (p : ℚ × ℚ) (draft : Annot) (now : Nat) :
    ((draft.width < 5 ∨ draft.height < 5) →
      (handleMouseUp ⟨true, some p, some draft⟩ s now).1 = s) ∧
    ((handleMouseUp ⟨true, some p, some draft⟩ s now).1.annotations.length
        = s.annotations.length + 1 ↔ 5 < draft.width ∧ 5 < draft.height) := by
  constructor
  · intro h
    have hn : ¬(5 < draft.width ∧ 5 < draft.height) := by
      rintro ⟨hw, hh⟩
      rcases h with h | h <;> linarith
    simp [handleMouseUp, hn]
  · by_cases hc : 5 < draft.width ∧ 5 < draft.height
    · simp [handleMouseUp, hc, handleAddAnnot, addToHistory]
    · simp [handleMouseUp, hc]

/-- C3 witness: a 3-by-10 drag draft is below the width threshold and its
commit leaves the initial state untouched. -/
theorem drag_threshold_reject_witness :
    ((rectDraft 0 0 3 10).width < 5 ∨ (rectDraft 0 0 3 10).height < 5) ∧
    (handleMouseUp ⟨true, some (0, 0), some (rectDraft 0 0 3 10)⟩ initialState 99).1
      = initialState :=
  ⟨Or.inl (by decide),
    (drag_threshold_reject initialState (0, 0) (rectDraft 0 0 3 10) 99).1
      (Or.inl (by decide))⟩

/-! ### C4 -/

/-- C4: the projection draws page-filtered annotations in array
(insertion) order with no layer sort — here the layer-1 annotation's
primitive precedes the layer-0 annotation's primitive, so the produced
sequence is not ordered by layer ascending. -/
theorem projection_ignores_layer_order :
    drawAnnots 1 1 [exLayer1Ann, exLayer0Ann]
      = [DrawPrimitive.strokeRect "#000" 2 10 10 20 20,
         DrawPrimitive.strokeRect "#000" 2 30 30 40 40] ∧
    exLayer1Ann.layer = some 1 ∧ exLayer0Ann.layer = some 0 := by
  refine ⟨?_, rfl, rfl⟩
  have hne : ("rectangle" : String) ≠ "text" := by decide
  norm_num [drawAnnots, drawAnnot, exLayer1Ann, exLayer0Ann, rectAnn, jsOrS, List.filter,
    hne]

/-! ### C5 -/

/-- C5: toggling a layer's visibility changes nothing (the handler only
raises a toast and no visibility state exists — every `layerList` entry
is hard-coded visible), and the projection still emits the toggled
layer's primitive since it filters by page only. -/
theorem toggle_visibility_noop :
    handleToggleVisibility [exLayer0Ann] 0 = [exLayer0Ann] ∧
    (layerList [exLayer0Ann]).map (fun e => e.visible) = [true] ∧
    drawAnnots 1 1 (handleToggleVisibility [exLayer0Ann] 0)
      = [DrawPrimitive.strokeRect "#000" 2 30 30 40 40] := by
  refine ⟨rfl, by decide, ?_⟩
  have hne : ("rectangle" : String) ≠ "text" := by decide
  norm_num [handleToggleVisibility, drawAnnots, drawAnnot, exLayer0Ann, rectAnn, jsOrS,
    List.filter, hne]

/-! ### C6 -/

/-- C6 counterexample: with a single layer-0 annotation, layer 0 is both
the topmost layer and `maxObservedLayer = 0`, yet moving it up sets its
layer to 1 — the upper clamp is `layerList.length` (the distinct-key
count), not `maxObservedLayer`, and moving the topmost layer up is not a
no-op. -/
theorem moveLayer_top_up_not_noop :
    handleMoveLayer [exLayer0Ann] 0 Direction.up ≠ [exLayer0Ann] ∧
    ((handleMoveLayer [exLayer0Ann] 0 Direction.up).getD 0 default).layer = some 1 := by
  constructor <;> decide

/-- C6 amended: `handleMoveLayer` maps every annotation whose layer
strictly equals the key to `min (key+1) layerList.length` for `up` and to
`key - 1` (clamped at 0) for `down`, leaving all other annotations and
all positions intact; moving layer 0 down is a no-op. -/
theorem moveLayer_amended (anns : List Annot) (k i : Nat) (dir : Direction)
    (hi : i < anns.length) :
    handleMoveLayer anns 0 Direction.down = anns ∧
    (handleMoveLayer anns k dir).length = anns.length ∧
    (handleMoveLayer anns k dir).getD i default =
      (if (anns.getD i default).layer = some k then
        match dir with
        | Direction.up =>
            { anns.getD i default with
                layer := some (min (k + 1) (layerList anns).length) }
        | Direction.down => { anns.getD i default with layer := some (k - 1) }
      else anns.getD i default) := by
  refine ⟨?_, by simp [handleMoveLayer], ?_⟩
  · have hf : ∀ a : Annot,
        (if a.layer = some 0 then { a with layer := some (0 - 1) } else a) = a := by
      intro a
      by_cases h : a.layer = some 0
      · cases a
        simp only [if_pos h]
        simp only at h
        simp [h]
      · simp [h]
    simp only [handleMoveLayer]
    have hfe :
        (fun (a : Annot) => if a.layer = some 0 then
          { a with layer := some (0 - 1) } else a) = id := funext hf
    rw [hfe, List.map_id]
  · simp only [handleMoveLayer]
    rw [getD_map_of_lt _ anns i default default hi]

/-- C6 witness: at a concrete two-annotation list, moving layer 0 down is
the identity. -/
theorem moveLayer_amended_witness :
    0 < ([exLayer1Ann, exLayer0Ann] : List Annot).length ∧
    handleMoveLayer [exLayer1Ann, exLayer0Ann] 0 Direction.down
      = [exLayer1Ann, exLayer0Ann] :=
  ⟨by decide,
    (moveLayer_amended [exLayer1Ann, exLayer0Ann] 0 0 Direction.down (by decide)).1⟩

/-! ### C7 -/

/-- C7 counterexample: deleting a layer never pushes a history snapshot:
deleting the unpopulated layer 1 of `exDeleteState` returns the state
bit-identically (history still of length 1), and even deleting the
populated layer 0 removes its annotation while leaving the one-snapshot
history and its cursor untouched. -/
theorem deleteLayer_no_snapshot_push :
    editorDeleteLayer exDeleteState 1 = exDeleteState ∧
    (editorDeleteLayer exDeleteState 0).annotations = [] ∧
    (editorDeleteLayer exDeleteState 0).history = exDeleteState.history ∧
    (editorDeleteLayer exDeleteState 0).history.length = 1 ∧
    (editorDeleteLayer exDeleteState 0).historyIndex = exDeleteState.historyIndex := by
  refine ⟨?_, ?_, ?_, ?_, ?_⟩ <;> decide

/-- C7 amended: `deleteLayer` removes exactly the annotations whose layer
equals the key (an order-preserving sublist remains, every survivor has a
different layer, every non-matching annotation survives), is a complete
no-op when none match, and never touches the history or its cursor — no
snapshot push happens. -/
theorem deleteLayer_amended (s : EditorState) (k : Nat) :
    (editorDeleteLayer s k).annotations.Sublist s.annotations ∧
    (∀ a ∈ (editorDeleteLayer s k).annotations, a.layer ≠ some k) ∧
    (∀ a ∈ s.annotations, a.layer ≠ some k → a ∈ (editorDeleteLayer s k).annotations) ∧
    ((∀ a ∈ s.annotations, a.layer ≠ some k) → editorDeleteLayer s k = s) ∧
    (editorDeleteLayer s k).history = s.history ∧
    (editorDeleteLayer s k).historyIndex = s.historyIndex := by
  refine ⟨List.filter_sublist _, ?_, ?_, ?_, rfl, rfl⟩
  · intro a ha
    simp only [editorDeleteLayer, handleDeleteLayer, List.mem_filter,
      decide_eq_true_eq] at ha
    exact ha.2
  · intro a ha hne
    simp only [editorDeleteLayer, handleDeleteLayer, List.mem_filter,
      decide_eq_true_eq]
    exact ⟨ha, hne⟩
  · intro h
    have hfil : handleDeleteLayer s.annotations k = s.annotations := by
      simp only [handleDeleteLayer]
      refine List.filter_eq_self.mpr ?_
      intro a ha
      simpa using h a ha
    simp [editorDeleteLayer, hfil]

/-- C7 witness: deleting the unpopulated layer 1 at the concrete state is
a complete no-op. -/
theorem deleteLayer_amended_witness :
    (∀ a ∈ exDeleteState.annotations, a.layer ≠ some 1) ∧
    editorDeleteLayer exDeleteState 1 = exDeleteState :=
  ⟨by decide, ((deleteLayer_amended exDeleteState 1).2.2.2.1) (by decide)⟩

/-! ### C9 -/

/-- C9 counterexample: two distinct drafts committed with the same
`Date.now()` millisecond yield two distinct annotations in the store
carrying the same id — commit does not assign unique ids. -/
theorem commit_duplicate_id :
    exDupState.annotations.length = 2 ∧
    exDupState.annotations.getD 0 default ≠ exDupState.annotations.getD 1 default ∧
    (exDupState.annotations.getD 0 default).id
      = (exDupState.annotations.getD 1 default).id := by
  refine ⟨?_, ?_, ?_⟩ <;> decide

/-- C9 amended: commit stamps the annotation's id with the clock value and
no operation ever rewrites an existing id, so ids are pairwise distinct in
every state whose commits all used fresh (e.g. strictly increasing)
`Date.now()` values: freshness of the clock value preserves pairwise
distinctness through both commit paths, and layer moves / layer deletes
keep every surviving id unchanged. -/
theorem id_uniqueness_amended (s : EditorState) (d : Annot) (t : Nat)
    (anns : List Annot) (k : Nat) (dir : Direction) :
    ((∀ a ∈ s.annotations, a.id ≠ t) →
      s.annotations.Pairwise (fun a b => a.id ≠ b.id) →
      ((handleAddAnnot s d t).annotations.Pairwise (fun a b => a.id ≠ b.id) ∧
        (handleAddSig s d t).annotations.Pairwise (fun a b => a.id ≠ b.id))) ∧
    (handleMoveLayer anns k dir).map (fun a => a.id) = anns.map (fun a => a.id) ∧
    ((handleDeleteLayer anns k).map (fun a => a.id)).Sublist
      (anns.map (fun a => a.id)) := by
  refine ⟨?_, ?_, (List.filter_sublist _).map _⟩
  · intro hfresh hpair
    constructor
    · simp only [handleAddAnnot, addToHistory]
      rw [List.pairwise_append]
      refine ⟨hpair, List.pairwise_singleton _ _, ?_⟩
      intro a ha b hb
      simp only [List.mem_singleton] at hb
      subst hb
      simpa using hfresh a ha
    · simp only [handleAddSig, addToHistory]
      rw [List.pairwise_append]
      refine ⟨hpair, List.pairwise_singleton _ _, ?_⟩
      intro a ha b hb
      simp only [List.mem_singleton] at hb
      subst hb
      simpa using hfresh a ha
  · simp only [handleMoveLayer, List.map_map]
    refine List.map_congr_left ?_
    intro a ha
    by_cases h : a.layer = some k
    · cases dir <;> simp [h, Function.comp]
    · simp [h, Function.comp]

/-- C9 witness: a fresh clock value at the initial (empty, trivially
pairwise-distinct) store keeps ids pairwise distinct after a commit. -/
theorem id_uniqueness_amended_witness :
    (∀ a ∈ initialState.annotations, a.id ≠ 100) ∧
    (handleAddAnnot initialState (rectDraft 1 1 10 10) 100).annotations.Pairwise
      (fun a b => a.id ≠ b.id) :=
  ⟨by simp [initialState],
    ((id_uniqueness_amended initialState (rectDraft 1 1 10 10) 100 [] 0
        Direction.up).1 (by simp [initialState]) (by simp [initialState])).1⟩

/-! ### C10 -/

/-- C10 counterexample: a signature placed from the library carries no
layer field at all (`none`), not the current length of the layers list
(`some 0`) — `handleAddSignature` never assigns `layer`. -/
theorem signature_layer_missing :
    (exSigState.annotations.getD 0 default).layer = none ∧
    exSigState.layers.length = 0 ∧
    (exSigState.annotations.getD 0 default).layer ≠ some exSigState.layers.length := by
  refine ⟨?_, ?_, ?_⟩ <;> decide

/-- C10 amended: `handleAddAnnotation` assigns the committed annotation
`layer = layers.length`, hence `layer = 0` in every state whose layers
list is empty — and it always is, since every session operation leaves
the layers list empty (upload resets it and `LayerManager` never invokes
`onLayersChange`); `handleAddSignature` instead copies the draft's layer
field verbatim (absent for library signatures). -/
theorem commit_layer_assignment (s : EditorState) (d sig : Annot) (t : Nat)
    (k : Nat) (dir : Direction) (fileSize : Nat) (fileType : String)
    (hlay : s.layers = []) :
    ((handleAddAnnot s d t).annotations.getD s.annotations.length default).layer
      = some 0 ∧
    ((handleAddSig s sig t).annotations.getD s.annotations.length default).layer
      = sig.layer ∧
    (handleAddAnnot s d t).layers = [] ∧
    (handleAddSig s sig t).layers = [] ∧
    (handleUndo s).layers = [] ∧
    (handleRedo s).layers = [] ∧
    (editorMoveLayer s k dir).layers = [] ∧
    (editorDeleteLayer s k).layers = [] ∧
    (handleFileUpload s fileSize fileType).layers = [] := by
  refine ⟨?_, ?_, ?_, ?_, ?_, ?_, ?_, ?_, ?_⟩
  · simp only [handleAddAnnot, addToHistory]
    rw [getD_append_singleton]
    simp [hlay]
  · simp only [handleAddSig, addToHistory]
    rw [getD_append_singleton]
  · simp [handleAddAnnot, addToHistory, hlay]
  · simp [handleAddSig, addToHistory, hlay]
  · unfold handleUndo
    split <;> simp [hlay]
  · unfold handleRedo
    split <;> simp [hlay]
  · simp [editorMoveLayer, hlay]
  · simp [editorDeleteLayer, hlay]
  · unfold handleFileUpload
    split
    · simp [hlay]
    · split <;> simp [hlay]

/-- C10 witness: committing a draft on the (empty-layers) initial state
yields an annotation on layer 0. -/
theorem commit_layer_assignment_witness :
    initialState.layers = [] ∧
    ((handleAddAnnot initialState (rectDraft 1 1 10 10) 300).annotations.getD
        initialState.annotations.length default).layer = some 0 :=
  ⟨rfl,
    (commit_layer_assignment initialState (rectDraft 1 1 10 10) sigDraft 300 0
        Direction.up 0 "application/pdf" rfl).1⟩

end ModifyPDF
